import Mathlib

/-!
# qbrt runtime provisioning pipeline: a shallow embedding

This file embeds the runtime provisioning pipeline of the qbrt repository
(src/bin/postinstall.js, its near-duplicate unnamed entry script, and
src/bin/postinstall-xulapp.js) and settles the specification's claims about
it.

Modelling conventions: JavaScript strings are Lean strings (or lists of
characters where character-level reasoning is needed); a record field that
may be absent (JavaScript undefined) is an Option; filesystem paths are
lists of path components; fallible computations return Except; the
asynchronous control structure of the entry script is modelled by an
explicit trace of observable events in the order the JavaScript engine
performs them (see Event and fullTrace below).
-/

namespace Qbrt

/-- The two fields of the remote and persisted build metadata that
bin/postinstall.js reads (buildid and target_alias, lines 120-121); a field
absent from the underlying JSON object is none, modelling JavaScript's
undefined. Any further fields of the JSON document are never read by the
comparison and are omitted. -/
structure BuildInfo where
  buildid : Option String
  target_alias : Option String
deriving DecidableEq

/-- The empty descriptor JSON.parse('{}') that the oracle uses when no
record file exists (line 109 of bin/postinstall.js): both fields read as
undefined. -/
def emptyInfo : BuildInfo := { buildid := none, target_alias := none }

/-- Lines 120-121 of bin/postinstall.js (identically lines 127-128 of the
unnamed entry script): the up-to-date decision
currentBrowserInfo.buildid === oldFirefoxInfo.buildid &&
currentBrowserInfo.target_alias === oldFirefoxInfo.target_alias.
JavaScript strict equality on two possibly-undefined string fields is
equality of the corresponding Option values: undefined === undefined is
true, undefined === "x" is false. -/
def isRuntimeUpToDate (cur old : BuildInfo) : Bool :=
  cur.buildid == old.buildid && cur.target_alias == old.target_alias

/-- process.platform as the entry scripts branch on it: the three handled
values plus any other platform string. -/
inductive NodePlatform where
  | win32
  | linux
  | darwin
  | otherOS (name : String)
deriving DecidableEq

/-- process.arch as the entry scripts branch on it. -/
inductive NodeArch where
  | ia32
  | x64
  | otherArch (name : String)
deriving DecidableEq

def NodeArch.archName : NodeArch → String
  | .ia32 => "ia32"
  | .x64 => "x64"
  | .otherArch s => s

def NodePlatform.platformName : NodePlatform → String
  | .win32 => "win32"
  | .linux => "linux"
  | .darwin => "darwin"
  | .otherOS s => s

/-- The DOWNLOAD_OS immediately-invoked function, lines 34-57 of
bin/postinstall.js: it throws (Except.error) for an unsupported
architecture under win32 or linux, returns a key for the five supported
combinations, and for any other platform falls off the end of the switch,
evaluating to undefined (Except.ok none) without any error. -/
def downloadOSFor : NodePlatform → NodeArch → Except String (Option String)
  | .win32, .ia32 => .ok (some "win")
  | .win32, .x64 => .ok (some "win64")
  | .win32, a => .error ("unsupported Windows architecture " ++ a.archName)
  | .linux, .ia32 => .ok (some "linux")
  | .linux, .x64 => .ok (some "linux64")
  | .linux, a => .error ("unsupported Linux architecture " ++ a.archName)
  | .darwin, _ => .ok (some "osx")
  | .otherOS _, _ => .ok none

def DOWNLOAD_LOCALE : String := "en-US"

/-- The DOWNLOAD_INFO_URLS object, lines 60-66 of bin/postinstall.js. -/
def DOWNLOAD_INFO_URLS : List (String × String) :=
  [("linux", "https://archive.mozilla.org/pub/firefox/nightly/2017/04/2017-04-02-10-01-59-mozilla-central/firefox-55.0a1." ++ DOWNLOAD_LOCALE ++ ".linux-i686.json"),
   ("linux64", "https://archive.mozilla.org/pub/firefox/nightly/2017/04/2017-04-02-10-01-59-mozilla-central/firefox-55.0a1." ++ DOWNLOAD_LOCALE ++ ".linux-x86_64.json"),
   ("osx", "https://archive.mozilla.org/pub/firefox/nightly/2017/04/2017-04-02-03-02-02-mozilla-central/firefox-55.0a1." ++ DOWNLOAD_LOCALE ++ ".mac.json"),
   ("win", "https://archive.mozilla.org/pub/firefox/nightly/2017/04/2017-04-02-03-02-02-mozilla-central/firefox-55.0a1." ++ DOWNLOAD_LOCALE ++ ".win32.json"),
   ("win64", "https://archive.mozilla.org/pub/firefox/nightly/2017/04/2017-04-02-03-02-02-mozilla-central/firefox-55.0a1." ++ DOWNLOAD_LOCALE ++ ".win64.json")]

/-- DOWNLOAD_INFO_URL = DOWNLOAD_INFO_URLS[DOWNLOAD_OS] (line 67): an
object lookup with an undefined key, or a key that is not a property,
yields undefined. -/
def DOWNLOAD_INFO_URL (dlos : Option String) : Option String :=
  dlos.bind fun k => DOWNLOAD_INFO_URLS.lookup k

/-- The DOWNLOAD_BIN_URLS object, lines 68-74 of bin/postinstall.js. Note
its keys: the darwin key is "mac" while DOWNLOAD_OS produces "osx", so the
lookup misses on darwin and the generic fallback URL is used. -/
def DOWNLOAD_BIN_URLS : List (String × String) :=
  [("linux", "https://archive.mozilla.org/pub/firefox/nightly/2017/04/2017-04-02-10-01-59-mozilla-central/firefox-55.0a1." ++ DOWNLOAD_LOCALE ++ ".linux-i686.tar.bz2"),
   ("linux64", "https://archive.mozilla.org/pub/firefox/nightly/2017/04/2017-04-02-10-01-59-mozilla-central/firefox-55.0a1." ++ DOWNLOAD_LOCALE ++ ".linux-x86_64.tar.bz2"),
   ("mac", "https://archive.mozilla.org/pub/firefox/nightly/2017/04/2017-04-02-03-02-02-mozilla-central/firefox-55.0a1." ++ DOWNLOAD_LOCALE ++ ".mac.dmg"),
   ("win", "https://archive.mozilla.org/pub/firefox/nightly/2017/04/2017-04-02-03-02-02-mozilla-central/firefox-55.0a1." ++ DOWNLOAD_LOCALE ++ ".win32.installer.exe"),
   ("win64", "https://archive.mozilla.org/pub/firefox/nightly/2017/04/2017-04-02-03-02-02-mozilla-central/firefox-55.0a1." ++ DOWNLOAD_LOCALE ++ ".win64.installer.exe")]

/-- How an Option String prints inside a JavaScript template literal:
undefined prints as the text "undefined". -/
def jsInterp : Option String → String
  | some s => s
  | none => "undefined"

/-- DOWNLOAD_URL = DOWNLOAD_BIN_URLS[DOWNLOAD_OS] or the fallback template
(line 75): a missing or undefined key falls through to the generic
download.mozilla.org redirect endpoint. -/
def DOWNLOAD_URL (dlos : Option String) : String :=
  match dlos.bind fun k => DOWNLOAD_BIN_URLS.lookup k with
  | some u => u
  | none =>
      "https://download.mozilla.org/?product=firefox-nightly-latest-ssl&lang="
        ++ DOWNLOAD_LOCALE ++ "&os=" ++ jsInterp dlos

/-- A filesystem path as a list of components, rooted at the package
directory (the scripts build every path with path.join). -/
abbrev Path := List String

/-- distDir = path.join(package root, 'dist', process.platform), line 77. -/
def distDirOf (p : NodePlatform) : Path := ["dist", p.platformName]

/-- installDir, line 78: 'Runtime.app' on darwin, 'runtime' elsewhere. -/
def installDirOf (p : NodePlatform) : Path :=
  distDirOf p ++ [if p = .darwin then "Runtime.app" else "runtime"]

/-- resourcesDir, line 79. -/
def resourcesDirOf (p : NodePlatform) : Path :=
  if p = .darwin then installDirOf p ++ ["Contents", "Resources"] else installDirOf p

/-- executableDir, line 80. -/
def executableDirOf (p : NodePlatform) : Path :=
  if p = .darwin then installDirOf p ++ ["Contents", "MacOS"] else installDirOf p

/-- The platform-derived configuration the spec calls a PlatformProfile:
everything lines 34-88 of bin/postinstall.js compute from process.platform
and process.arch alone, before any network or filesystem operation (the
first filesystem call is fs.ensureDirSync on line 92). -/
structure PlatformProfile where
  downloadOS : Option String
  infoURL : Option String
  binURL : String
  distDir : Path
  installDir : Path
  resourcesDir : Path
  executableDir : Path
deriving DecidableEq

/-- Resolution of the whole profile from (platform, arch): a pure
computation that can only fail where the DOWNLOAD_OS switch throws. -/
def resolvePlatformProfile (p : NodePlatform) (a : NodeArch) :
    Except String PlatformProfile :=
  (downloadOSFor p a).map fun dlos =>
    { downloadOS := dlos
      infoURL := DOWNLOAD_INFO_URL dlos
      binURL := DOWNLOAD_URL dlos
      distDir := distDirOf p
      installDir := installDirOf p
      resourcesDir := resourcesDirOf p
      executableDir := executableDirOf p }

/-- The fourteen characters of the installer suffix matched by the regular
expression in the redirect handler (line 164 of bin/postinstall.js). -/
def installerSuffix : List Char := ".installer.exe".data

def zipSuffix : List Char := ".zip".data

/-- The redirect handler of download(), lines 156-167 of bin/postinstall.js:
on win32 a redirect target is passed through
location.replace(regex matching a final ".installer.exe", '.zip'), which
replaces a trailing installer suffix by ".zip" and leaves every other
string unchanged; on any other platform the target is followed verbatim.
URLs are modelled at the character level. -/
def rewriteLocation (p : NodePlatform) (location : List Char) : List Char :=
  if p = .win32 then
    if installerSuffix.isSuffixOf location then
      location.take (location.length - installerSuffix.length) ++ zipSuffix
    else location
  else location

/-! ## The entry script's control flow as an event trace

bin/postinstall.js is a single module whose top level builds two promise
chains. Three facts of JavaScript promise semantics drive the model:

1. The executor passed to a Promise constructor runs synchronously, during
   the constructor call itself. The statement at line 201,
   installRuntime = new Promise(executor), therefore runs its executor
   (spinner, then the platform branch that removes the previous runtime
   directory and starts extraction or spawns hdiutil) during module
   evaluation, before any asynchronous callback - in particular before the
   version-check promise of line 100 can settle and before any download.

2. A promise whose executor never invokes its resolve or reject argument
   never settles. The executor of line 201 takes no parameters and only
   returns an inner promise (a return value the Promise constructor
   ignores), so installRuntime stays pending forever, and every handler
   chained on it - the bundle grafting of line 274, the omni.ja extraction,
   the preference copies, the launcher installation, the catch of line 336
   and the cleanup block of lines 343-351 including process.exit() - never
   runs.

3. then(x) with a non-function x is ignored. Line 147 chains
   .then(installRuntime), whose argument is a promise (and, at the time
   line 147 runs, still the undefined value of the hoisted var), so the
   main chain never triggers installation either.

The trace lists the observable actions in the order the engine performs
them: first the synchronous module-evaluation phase, then one admissible
serialization of the asynchronous callbacks (each promise chain's own
events appear in causal order; the interleaving between independent chains
is fixed arbitrarily, and no claim proved below depends on it). An
uncaught exception thrown inside a plain callback (not a promise executor
or handler) terminates the Node.js process; the trace ends there. -/

/-- Observable actions of bin/postinstall.js. Constructors that the trace
never contains (grafting, cleanup, explicit exit) are listed so their
absence is expressible. -/
inductive Event where
  | configErrorEv (msg : String)
  | ensureDistDirEv
  | makeTempDirEv
  | readRecordStart
  | installSpinnerEv
  | removeRuntimeStart
  | removeRuntimeSyncEv
  | decompressStartEv (source : Option String)
  | attachSpawnEv (file : Option String)
  | innerRejectedEv
  | versionResolvedEv (value : Option Bool)
  | versionRejectedEv
  | uncaughtCrashEv (msg : String)
  | upToDateMsgEv
  | newVersionMsgEv
  | checkFailedMsgEv
  | downloadGetEv (url : String)
  | downloadFailedEv
  | streamFinishEv
  | writeRecordEv
  | downloadDoneEv
  | attachExitEv (code : Nat)
  | installThrowEv (msg : String)
  | removeDestEv
  | copyAppEv
  | detachSpawnEv
  | detachExitEv (code : Nat)
  | graftStartEv
  | extractJarEv
  | copyPrefsEv
  | launcherEv
  | setupDoneMsgEv
  | setupFailedMsgEv
  | cleanupFileEv
  | cleanupDirEv
  | processExitEv
deriving DecidableEq

/-- The run's environment: everything outside the script that its behaviour
depends on. stored is the composite outcome of fs.readFile on the record
file followed by JSON.parse: none when the file is missing (readFile
errors), some (Except.error e) when its content does not parse, and
some (Except.ok info) when it parses. remoteParse is the outcome of
JSON.parse applied to the metadata response. attachExit and detachExit are
the exit codes of the two hdiutil invocations on darwin. -/
structure Env where
  platform : NodePlatform
  arch : NodeArch
  stored : Option (Except String BuildInfo)
  infoGetFails : Bool
  remoteParse : Except String BuildInfo
  binGetFails : Bool
  attachExit : Nat
  detachExit : Nat

/-- The synchronous part of the installRuntime executor (lines 201-271):
platform branch entered during module evaluation. filePath is the hoisted
variable of line 97, still undefined (none) at this point because the
download that assigns it has not run. On win32 the asynchronous
fs.remove of the previous runtime directory is started; on linux the
previous runtime directory is removed synchronously and decompress is
called on the undefined source; on darwin hdiutil attach is spawned on the
undefined file; any other platform matches no branch. -/
def installExecutorEvents (p : NodePlatform) : List Event :=
  [.installSpinnerEv] ++
    match p with
    | .win32 => [.removeRuntimeStart]
    | .darwin => [.attachSpawnEv none]
    | .linux => [.removeRuntimeSyncEv, .decompressStartEv none]
    | .otherOS _ => []

/-- Module-evaluation phase, in source order: fs.ensureDirSync (line 92),
fs.mkdtempSync (line 93), the version-check executor (line 100: when the
platform has a metadata URL it starts fs.readFile, otherwise it resolves at
once), then the installRuntime executor (line 201). -/
def syncPhase (env : Env) (dlos : Option String) : List Event :=
  [.ensureDistDirEv, .makeTempDirEv]
    ++ (match DOWNLOAD_INFO_URL dlos with
        | some _ => [.readRecordStart]
        | none => [])
    ++ installExecutorEvents env.platform

/-- How the version-check promise of lines 100-133 settles. -/
inductive CheckResult where
  | resolved (value : Option Bool)
  | rejected
  | crashed (msg : String)

/-- The version-check promise's settlement (lines 100-133 of
bin/postinstall.js). No metadata URL: resolve() with undefined. Record
file missing: the readFile callback sees an error and calls resolve(false)
(line 106; the callback then falls through and still parses '{}' and
issues the metadata request, whose later settle attempts are no-ops on the
already-settled promise). Record file present but unparsable:
JSON.parse(data) on line 109 throws inside a plain callback - an uncaught
exception that kills the process. Record parsed: a network error on the
metadata request rejects (line 128); otherwise the response is parsed
(remoteParse; a parse failure rejects via line 116) and the comparison of
lines 120-121 resolves true on a match and undefined otherwise. -/
def checkForUpdate (env : Env) (dlos : Option String) : CheckResult :=
  match DOWNLOAD_INFO_URL dlos with
  | none => .resolved none
  | some _ =>
      match env.stored with
      | none => .resolved (some false)
      | some (.error e) => .crashed e
      | some (.ok old) =>
          if env.infoGetFails then .rejected
          else
            match env.remoteParse with
            | .error _ => .rejected
            | .ok cur =>
                if isRuntimeUpToDate cur old then .resolved (some true)
                else .resolved none

/-- downloadRuntime() (lines 153-199): the spinner, the manual
redirect-following GET of DOWNLOAD_URL (each hop rewritten by
rewriteLocation), then either the failure branch of the catch or the
stream-to-file completion, which persists the fetched descriptor to the
record file before resolving. -/
def downloadEvents (env : Env) (dlos : Option String) : List Event :=
  [.downloadGetEv (DOWNLOAD_URL dlos)] ++
    (if env.binGetFails then [.downloadFailedEv]
     else [.streamFinishEv, .writeRecordEv, .downloadDoneEv])

/-- The main chain's handlers (lines 135-151) once the version check
settles: a rejection reaches the catch of line 148; a truthy resolution
prints the up-to-date message and resolves; a falsy one prints the
new-version message and runs downloadRuntime(). Either way the following
.then(installRuntime) ignores its non-function argument and triggers
nothing. -/
def mainChainEvents (env : Env) (dlos : Option String) : List Event :=
  match checkForUpdate env dlos with
  | .crashed _ => []
  | .rejected => [.checkFailedMsgEv]
  | .resolved (some true) => [.upToDateMsgEv]
  | .resolved _ => [.newVersionMsgEv] ++ downloadEvents env dlos

/-- The asynchronous continuations of the inner promise chain the
installRuntime executor returned (a chain whose rejection nobody handles,
because the executor's return value is discarded). win32: the eager
fs.remove completes, decompress is called on the undefined source and
rejects. linux: the decompress already called on the undefined source
rejects. darwin: hdiutil attach (spawned on the undefined file) exits; a
nonzero code throws the Error of line 229 carrying the code, skipping the
copy and the detach; code zero proceeds to remove the destination, copy
the mounted bundle, spawn hdiutil detach and check its code (line 259). -/
def installAsyncEvents (env : Env) : List Event :=
  match env.platform with
  | .win32 => [.decompressStartEv none, .innerRejectedEv]
  | .linux => [.innerRejectedEv]
  | .darwin =>
      [.attachExitEv env.attachExit] ++
        (if env.attachExit ≠ 0 then
          [.installThrowEv ("'hdiutil attach' exited with code "
            ++ toString env.attachExit)]
         else
          [.removeDestEv, .copyAppEv, .detachSpawnEv, .detachExitEv env.detachExit]
            ++ (if env.detachExit ≠ 0 then
                  [.installThrowEv ("'hdiutil detach' exited with code "
                    ++ toString env.detachExit)]
                else []))
  | .otherOS _ => []

/-- Asynchronous phase: the version check settles (or crashes the process,
truncating the trace), the main chain reacts, and the orphaned inner
install chain runs its continuations. The grafting, launcher, cleanup and
process.exit events never occur: they are chained on the forever-pending
installRuntime promise (see the module comment). -/
def asyncPhase (env : Env) (dlos : Option String) : List Event :=
  match checkForUpdate env dlos with
  | .crashed e => [.uncaughtCrashEv e]
  | .rejected =>
      [.versionRejectedEv] ++ mainChainEvents env dlos ++ installAsyncEvents env
  | .resolved v =>
      [.versionResolvedEv v] ++ mainChainEvents env dlos ++ installAsyncEvents env

/-- The whole run. Computing DOWNLOAD_OS (line 34) precedes everything; an
unsupported architecture throws there, before any filesystem or network
action, and nothing else of the module runs. -/
def fullTrace (env : Env) : List Event :=
  match downloadOSFor env.platform env.arch with
  | .error m => [.configErrorEv m]
  | .ok dlos => syncPhase env dlos ++ asyncPhase env dlos

/-! ## A file-store model of the win32/linux install step

The Platform Installer's win32 branch (lines 204-213) and linux branch
(lines 263-271) perform the same three filesystem operations:
fs.remove(dist/runtime), decompress(archive, dist), and
fs.rename(dist/firefox, dist/runtime). A file store is a finite list of
(path, content) entries in which a later entry for the same path shadows
an earlier one (the write order); lookupFS reads the latest entry.
removeTree models the recursive remove of a path (every entry at or below
it disappears); decompressTo models archive expansion into a destination
directory (each archive entry is written at destination ++ its relative
path, overwriting); renameTree models the directory rename (every entry
below the source moves below the destination). -/

/-- An archive or a file store: (path, content) entries, later wins. -/
abbrev FS := List (Path × String)

/-- The latest content written at p, if any. -/
def lookupFS (fs : FS) (p : Path) : Option String :=
  fs.foldl (fun acc e => if e.1 = p then some e.2 else acc) none

/-- fs.remove / fs.removeSync of a path: drop the whole subtree. -/
def removeTree (fs : FS) (d : Path) : FS :=
  fs.filter fun e => ¬ (d <+: e.1)

/-- A single written file: any previous entry at the path is shadowed. -/
def setFile (fs : FS) (p : Path) (c : String) : FS :=
  fs ++ [(p, c)]

/-- decompress(source, destination): write every archive entry under the
destination directory, in archive order. -/
def decompressTo (fs : FS) (dest : Path) (archive : FS) : FS :=
  archive.foldl (fun acc e => setFile acc (dest ++ e.1) e.2) fs

/-- fs.rename(src, dst) on a directory: entries below src reappear below
dst, everything else stays. -/
def renameTree (fs : FS) (src dst : Path) : FS :=
  (fs.filter fun e => ¬ (src <+: e.1))
    ++ fs.filterMap fun e =>
        if src <+: e.1 then some (dst ++ e.1.drop src.length, e.2) else none

/-- The win32/linux install step of installRuntime, as its intent reads
(lines 204-213 and 263-271 of bin/postinstall.js): remove any existing
dist/runtime subtree, expand the archive into dist, rename dist/firefox
to dist/runtime. -/
def installArchiveStep (dest : Path) (archive : FS) (fs : FS) : FS :=
  renameTree (decompressTo (removeTree fs (dest ++ ["runtime"])) dest archive)
    (dest ++ ["firefox"]) (dest ++ ["runtime"])

/-! ## The standalone Bundle Grafter module, bin/postinstall-xulapp.js -/

/-- Line 26 of bin/postinstall-xulapp.js: the feature flag is on. -/
def OPENVR_ENABLED : Bool := true

/-- The string-valued constant bindings of the module scope of
bin/postinstall-xulapp.js that the download step could name. Only
OPENVR_URL is defined (line 27); there is no OPENVR_DLL_URL binding. -/
def xulappModuleConsts : List (String × String) :=
  [("OPENVR_URL",
    "https://github.com/ValveSoftware/openvr/raw/v1.0.6/bin/win64/openvr_api.dll")]

/-- Evaluating an identifier in the module scope: an undeclared identifier
throws a ReferenceError in strict mode. -/
def lookupModuleIdent (n : String) : Except String String :=
  match xulappModuleConsts.lookup n with
  | some v => Except.ok v
  | none => Except.error ("ReferenceError: " ++ n ++ " is not defined")

/-- exports.install of bin/postinstall-xulapp.js (lines 33-75) as the
settlement of the promise it returns, with the outcomes of its three
effectful stages abstracted: ensureDir on the target directory, the
Promise.all of the seven companion-file copies, and - were it ever reached
- the network download and preference append (net). After the copies, with
the flag enabled, the executor of line 56 evaluates
request(OPENVR_DLL_URL): the identifier lookup throws inside the promise
executor, which the Promise constructor converts into a rejection. -/
def xulappInstall (ensureDirOk : Bool) (copyOk : Bool)
    (net : Except String Unit) : Except String Unit :=
  if ¬ ensureDirOk then Except.error "ensureDir failed"
  else if ¬ copyOk then Except.error "copy failed"
  else if ¬ OPENVR_ENABLED then Except.ok ()
  else
    match lookupModuleIdent "OPENVR_DLL_URL" with
    | Except.error e => Except.error e
    | Except.ok _ => net

/-! ## Concrete run environments and helper predicates used by the claims -/

/-- Events the run can emit; the grafting, cleanup and exit events are not
among them (they sit on the forever-pending installRuntime promise). -/
def emittable : Event → Bool
  | .configErrorEv _ => true
  | .ensureDistDirEv => true
  | .makeTempDirEv => true
  | .readRecordStart => true
  | .installSpinnerEv => true
  | .removeRuntimeStart => true
  | .removeRuntimeSyncEv => true
  | .decompressStartEv _ => true
  | .attachSpawnEv _ => true
  | .innerRejectedEv => true
  | .versionResolvedEv _ => true
  | .versionRejectedEv => true
  | .uncaughtCrashEv _ => true
  | .upToDateMsgEv => true
  | .newVersionMsgEv => true
  | .checkFailedMsgEv => true
  | .downloadGetEv _ => true
  | .downloadFailedEv => true
  | .streamFinishEv => true
  | .writeRecordEv => true
  | .downloadDoneEv => true
  | .attachExitEv _ => true
  | .installThrowEv _ => true
  | .removeDestEv => true
  | .copyAppEv => true
  | .detachSpawnEv => true
  | .detachExitEv _ => true
  | .graftStartEv => false
  | .extractJarEv => false
  | .copyPrefsEv => false
  | .launcherEv => false
  | .setupDoneMsgEv => false
  | .setupFailedMsgEv => false
  | .cleanupFileEv => false
  | .cleanupDirEv => false
  | .processExitEv => false

/-- A fully populated resolution outcome: the profile exists and its three
download-related fields are all defined and nonempty (the path fields are
total by construction). -/
def profileFull (r : Except String PlatformProfile) : Prop :=
  ∃ pr, r = Except.ok pr ∧ pr.downloadOS.isSome = true
    ∧ pr.infoURL.isSome = true ∧ pr.binURL ≠ ""

/-- A linux/x64 run whose stored record matches the fetched metadata. -/
def env4 : Env :=
  { platform := .linux, arch := .x64
    stored := some (.ok { buildid := some "20170402100159",
                          target_alias := some "linux-x86_64" })
    infoGetFails := false
    remoteParse := .ok { buildid := some "20170402100159",
                         target_alias := some "linux-x86_64" }
    binGetFails := false, attachExit := 0, detachExit := 0 }

/-- The spec's end-to-end scenario 1: remote metadata buildid X /
target_alias Y, identical local record, on linux/x64. -/
def env6 : Env :=
  { platform := .linux, arch := .x64
    stored := some (.ok { buildid := some "X", target_alias := some "Y" })
    infoGetFails := false
    remoteParse := .ok { buildid := some "X", target_alias := some "Y" }
    binGetFails := false, attachExit := 0, detachExit := 0 }

/-- A darwin run with no stored record in which hdiutil attach exits 1. -/
def env7 : Env :=
  { platform := .darwin, arch := .x64, stored := none
    infoGetFails := false
    remoteParse := .ok { buildid := some "X", target_alias := some "Y" }
    binGetFails := false, attachExit := 1, detachExit := 0 }

/-- A linux/x64 run whose stored record file exists but does not parse. -/
def env8 : Env :=
  { platform := .linux, arch := .x64
    stored := some (.error "SyntaxError: Unexpected token")
    infoGetFails := false
    remoteParse := .ok { buildid := some "X", target_alias := some "Y" }
    binGetFails := false, attachExit := 0, detachExit := 0 }

/-- A linux/x64 environment with the remaining inputs free: used to
quantify claims over every linux run. -/
def mkLinuxEnv (st : Option (Except String BuildInfo)) (igf : Bool)
    (rp : Except String BuildInfo) (bg : Bool) (ae de : Nat) : Env :=
  { platform := .linux, arch := .x64, stored := st, infoGetFails := igf
    remoteParse := rp, binGetFails := bg, attachExit := ae, detachExit := de }

/-- Concrete data for the install-idempotence witness. -/
def destW : Path := ["dist", "linux"]

def archiveW : FS := [(["firefox", "app", "main"], "binary")]

def fsW : FS := [(["dist", "linux", "runtime", "old"], "stale")]

/-! ## Claims C1-C3 and C10 -/

/-- C1, counterexample: the claim says the decision is false for every pair
in which a field is missing from one or both descriptors, including the
empty stored descriptor; but for the empty stored descriptor against a
fetched document that also lacks both fields, the strict equalities compare
undefined with undefined and the decision is true. -/
theorem claim1_counterexample : isRuntimeUpToDate emptyInfo emptyInfo = true := rfl

/-- C1 (amended): the up-to-date decision is true exactly when the buildid
fields agree and the target_alias fields agree as possibly-undefined
values; a field present on exactly one side therefore yields false, but a
field missing from both sides counts as a match. -/
theorem claim1_amended (cur old : BuildInfo) :
    (isRuntimeUpToDate cur old = true ↔
      cur.buildid = old.buildid ∧ cur.target_alias = old.target_alias) ∧
    (cur.buildid.isSome ≠ old.buildid.isSome → isRuntimeUpToDate cur old = false) ∧
    (cur.target_alias.isSome ≠ old.target_alias.isSome →
      isRuntimeUpToDate cur old = false) := by
  refine ⟨by simp [isRuntimeUpToDate], fun h => ?_, fun h => ?_⟩
  · rw [isRuntimeUpToDate, Bool.and_eq_false_iff]
    exact Or.inl (by simpa using fun hc => h (by rw [hc]))
  · rw [isRuntimeUpToDate, Bool.and_eq_false_iff]
    exact Or.inr (by simpa using fun hc => h (by rw [hc]))

/-- C2, counterexample: the claim says every unsupported (os, arch) pair
fails with a configuration error before any I/O, but an unrecognized
platform (here freebsd/x64) falls off the DOWNLOAD_OS switch and the
resolution succeeds, with no error at all. -/
theorem claim2_counterexample :
    (resolvePlatformProfile (NodePlatform.otherOS "freebsd") NodeArch.x64).isOk
      = true := rfl

/-- C2 (amended): for the five supported (os, arch) pairs, resolution is a
pure computation yielding a profile whose download fields are all
populated; an unsupported architecture under win32 or linux throws before
any I/O (the whole run's trace is the single configuration-error event);
but an unrecognized platform does not fail: it yields a profile whose
downloadOS and metadata URL are undefined. -/
theorem claim2_amended :
    profileFull (resolvePlatformProfile .win32 .ia32) ∧
    profileFull (resolvePlatformProfile .win32 .x64) ∧
    profileFull (resolvePlatformProfile .linux .ia32) ∧
    profileFull (resolvePlatformProfile .linux .x64) ∧
    (∀ a, profileFull (resolvePlatformProfile .darwin a)) ∧
    (∀ s, resolvePlatformProfile .win32 (.otherArch s)
        = .error ("unsupported Windows architecture " ++ s)) ∧
    (∀ s, resolvePlatformProfile .linux (.otherArch s)
        = .error ("unsupported Linux architecture " ++ s)) ∧
    (∀ s st igf rp bg ae de,
        fullTrace { platform := .win32, arch := .otherArch s, stored := st,
                    infoGetFails := igf, remoteParse := rp, binGetFails := bg,
                    attachExit := ae, detachExit := de }
          = [.configErrorEv ("unsupported Windows architecture " ++ s)]) ∧
    (∀ s a, ∃ pr, resolvePlatformProfile (.otherOS s) a = .ok pr ∧
        pr.downloadOS = none ∧ pr.infoURL = none) := by
  refine ⟨⟨_, rfl, rfl, rfl, by decide⟩, ⟨_, rfl, rfl, rfl, by decide⟩,
    ⟨_, rfl, rfl, rfl, by decide⟩, ⟨_, rfl, rfl, rfl, by decide⟩,
    fun a => ?_, fun s => rfl, fun s => rfl,
    fun s st igf rp bg ae de => rfl, fun s a => ?_⟩
  · cases a <;> exact ⟨_, rfl, rfl, rfl, by decide⟩
  · cases a <;> exact ⟨_, rfl, rfl, rfl⟩

/-- C3: the redirect-rewrite rule. On win32 a redirect target ending in the
installer suffix is followed as its stem with the archive suffix ".zip"
appended - character for character the same stem; a target not ending in
the installer suffix, or any target on a non-win32 platform, is followed
unchanged. -/
theorem claim3_redirect_rewrite :
    (∀ stem : List Char,
        rewriteLocation .win32 (stem ++ installerSuffix) = stem ++ zipSuffix) ∧
    (∀ loc : List Char, ¬ (installerSuffix <:+ loc) →
        rewriteLocation .win32 loc = loc) ∧
    (∀ p, p ≠ NodePlatform.win32 → ∀ loc, rewriteLocation p loc = loc) := by
  refine ⟨fun stem => ?_, fun loc h => ?_, fun p hp loc => ?_⟩
  · rw [rewriteLocation, if_pos rfl, if_pos]
    · rw [List.length_append, Nat.add_sub_cancel, List.take_left]
    · rw [List.isSuffixOf_iff_suffix]
      exact List.suffix_append _ _
  · rw [rewriteLocation, if_pos rfl, if_neg]
    rw [List.isSuffixOf_iff_suffix]
    exact h
  · rw [rewriteLocation, if_neg hp]

/-- C10: with the platform-support-library flag enabled (its defined
value), every invocation of the standalone grafter's install() fails: once
the companion-file copies succeed, evaluating the undeclared identifier
OPENVR_DLL_URL throws a ReferenceError inside the download promise's
executor, rejecting the returned promise; no outcome of the abstracted
stages can make install() resolve. -/
theorem claim10_openvr_reference_error :
    (∀ net, xulappInstall true true net
        = Except.error "ReferenceError: OPENVR_DLL_URL is not defined") ∧
    (∀ ensureDirOk copyOk net, xulappInstall ensureDirOk copyOk net ≠ Except.ok ()) := by
  refine ⟨fun net => rfl, fun e c net => ?_⟩
  cases e <;> cases c <;> exact fun h => Except.noConfusion h

/-! ## Claims C4-C8: the temporal structure of the run -/

theorem installExecutorEvents_all (p : NodePlatform) :
    (installExecutorEvents p).all emittable = true := by
  cases p <;> rfl

theorem syncPhase_all (env : Env) (dlos : Option String) :
    (syncPhase env dlos).all emittable = true := by
  unfold syncPhase
  rcases h : DOWNLOAD_INFO_URL dlos with _ | u <;>
    simp [h, List.all_append, installExecutorEvents_all, emittable]

theorem downloadEvents_all (env : Env) (dlos : Option String) :
    (downloadEvents env dlos).all emittable = true := by
  unfold downloadEvents
  split <;> rfl

theorem mainChainEvents_all (env : Env) (dlos : Option String) :
    (mainChainEvents env dlos).all emittable = true := by
  unfold mainChainEvents
  split
  · rfl
  · rfl
  · rfl
  · simp [List.all_append, downloadEvents_all, emittable]

theorem installAsyncEvents_all (env : Env) :
    (installAsyncEvents env).all emittable = true := by
  unfold installAsyncEvents
  split
  · rfl
  · rfl
  · split
    · rfl
    · split <;> rfl
  · rfl

theorem asyncPhase_all (env : Env) (dlos : Option String) :
    (asyncPhase env dlos).all emittable = true := by
  unfold asyncPhase
  split
  · rfl
  · simp [List.all_append, mainChainEvents_all, installAsyncEvents_all, emittable]
  · simp [List.all_append, mainChainEvents_all, installAsyncEvents_all, emittable]

theorem fullTrace_all (env : Env) : (fullTrace env).all emittable = true := by
  unfold fullTrace
  split
  · rfl
  · simp [List.all_append, syncPhase_all, asyncPhase_all]

/-- C4: the claim says the install step begins only after the version check
has resolved and the download finished; but in the trace of a matching-
record linux run the synchronous removal of the previous runtime directory
(the installRuntime executor, run eagerly at module evaluation) sits at
index 4, before the version-check resolution at index 6 - the remove-and-
extract step starts before the version check settles, because the executor
of new Promise runs synchronously and .then(installRuntime) never
sequences it. -/
theorem claim4_install_starts_before_check :
    Event.removeRuntimeSyncEv ∈ (fullTrace env4).take 6 ∧
    (∀ v, Event.versionResolvedEv v ∉ (fullTrace env4).take 6) ∧
    Event.versionResolvedEv (some true) ∈ fullTrace env4 := by
  have h : fullTrace env4 =
      [.ensureDistDirEv, .makeTempDirEv, .readRecordStart, .installSpinnerEv,
       .removeRuntimeSyncEv, .decompressStartEv none,
       .versionResolvedEv (some true), .upToDateMsgEv, .innerRejectedEv] := rfl
  refine ⟨by rw [h]; simp, fun v => ?_, by rw [h]; simp⟩
  rw [h]
  simp

/-- C5: the claim says cleanup (removal of the temporary archive file and
directory) and the explicit process exit run unconditionally after the
pipeline; but the cleanup block of lines 343-351 is chained on the
installRuntime promise, whose executor never calls resolve or reject, so
in no environment does any cleanup or exit event ever occur in the run's
trace. -/
theorem claim5_cleanup_never_runs (env : Env) :
    Event.cleanupFileEv ∉ fullTrace env ∧ Event.cleanupDirEv ∉ fullTrace env ∧
    Event.processExitEv ∉ fullTrace env := by
  have h := List.all_eq_true.mp (fullTrace_all env)
  exact ⟨fun hm => by simpa [emittable] using h _ hm,
    fun hm => by simpa [emittable] using h _ hm,
    fun hm => by simpa [emittable] using h _ hm⟩

/-- C6: in the spec's scenario 1 (identical stored and fetched records, on
linux/x64) the run indeed makes no binary download request and prints the
up-to-date message; but contrary to the claim the install tree is not left
unmodified - the eagerly-run installRuntime executor removes the runtime
directory at module evaluation - and no explicit exit ever happens. -/
theorem claim6_up_to_date_run_mutates_tree :
    Event.upToDateMsgEv ∈ fullTrace env6 ∧
    (∀ u, Event.downloadGetEv u ∉ fullTrace env6) ∧
    Event.removeRuntimeSyncEv ∈ fullTrace env6 ∧
    Event.processExitEv ∉ fullTrace env6 := by
  have h : fullTrace env6 =
      [.ensureDistDirEv, .makeTempDirEv, .readRecordStart, .installSpinnerEv,
       .removeRuntimeSyncEv, .decompressStartEv none,
       .versionResolvedEv (some true), .upToDateMsgEv, .innerRejectedEv] := rfl
  refine ⟨by rw [h]; simp, fun u => ?_, by rw [h]; simp, by rw [h]; simp⟩
  rw [h]
  simp

/-- C7: when hdiutil attach exits nonzero (here 1) on darwin, the inner
install chain does throw the error carrying the exit code and no copy of
the mounted bundle and no detach are attempted - that much of the claim
holds; but contrary to the claim's last part, the temporary workspace is
never removed: no cleanup event occurs, because the cleanup block hangs on
the never-settling installRuntime promise. -/
theorem claim7_attach_failure :
    Event.attachExitEv 1 ∈ fullTrace env7 ∧
    Event.installThrowEv "'hdiutil attach' exited with code 1" ∈ fullTrace env7 ∧
    Event.copyAppEv ∉ fullTrace env7 ∧
    Event.detachSpawnEv ∉ fullTrace env7 ∧
    Event.cleanupFileEv ∉ fullTrace env7 ∧
    Event.cleanupDirEv ∉ fullTrace env7 := by
  have h : fullTrace env7 =
      [.ensureDistDirEv, .makeTempDirEv, .readRecordStart, .installSpinnerEv,
       .attachSpawnEv none, .versionResolvedEv (some false), .newVersionMsgEv,
       .downloadGetEv (DOWNLOAD_URL (some "osx")), .streamFinishEv,
       .writeRecordEv, .downloadDoneEv, .attachExitEv 1,
       .installThrowEv "'hdiutil attach' exited with code 1"] := rfl
  rw [h]
  refine ⟨by simp, by simp, by simp, by simp, by simp, by simp⟩

/-- C8, counterexample: the claim says an unparsable record file is treated
as "no prior build" and the run continues toward download, not a fatal
error; but with a record file whose content does not parse, JSON.parse
throws inside the readFile callback - an uncaught exception that kills the
process: the trace ends at the crash, the version check never settles and
no download request is ever made. -/
theorem claim8_counterexample :
    Event.uncaughtCrashEv "SyntaxError: Unexpected token" ∈ fullTrace env8 ∧
    (∀ u, Event.downloadGetEv u ∉ fullTrace env8) ∧
    (∀ v, Event.versionResolvedEv v ∉ fullTrace env8) := by
  have h : fullTrace env8 =
      [.ensureDistDirEv, .makeTempDirEv, .readRecordStart, .installSpinnerEv,
       .removeRuntimeSyncEv, .decompressStartEv none,
       .uncaughtCrashEv "SyntaxError: Unexpected token"] := rfl
  refine ⟨by rw [h]; simp, fun u => by rw [h]; simp, fun v => by rw [h]; simp⟩

/-- C8 (amended): a missing record file is indeed treated as no prior build
- the oracle resolves false and the run proceeds to the download request,
with no crash - but a record file with unparsable content throws an
uncaught exception: the process dies, nothing settles and no download is
made. Both halves are stated for every linux/x64 environment. -/
theorem claim8_amended :
    (∀ igf rp bg ae de,
        Event.versionResolvedEv (some false) ∈
            fullTrace (mkLinuxEnv none igf rp bg ae de) ∧
        Event.downloadGetEv (DOWNLOAD_URL (some "linux64")) ∈
            fullTrace (mkLinuxEnv none igf rp bg ae de) ∧
        (∀ m, Event.uncaughtCrashEv m ∉ fullTrace (mkLinuxEnv none igf rp bg ae de))) ∧
    (∀ msg igf rp bg ae de,
        Event.uncaughtCrashEv msg ∈
            fullTrace (mkLinuxEnv (some (.error msg)) igf rp bg ae de) ∧
        (∀ u, Event.downloadGetEv u ∉
            fullTrace (mkLinuxEnv (some (.error msg)) igf rp bg ae de))) := by
  constructor
  · intro igf rp bg ae de
    cases bg
    · have h : fullTrace (mkLinuxEnv none igf rp false ae de) =
          [.ensureDistDirEv, .makeTempDirEv, .readRecordStart, .installSpinnerEv,
           .removeRuntimeSyncEv, .decompressStartEv none,
           .versionResolvedEv (some false), .newVersionMsgEv,
           .downloadGetEv (DOWNLOAD_URL (some "linux64")), .streamFinishEv,
           .writeRecordEv, .downloadDoneEv, .innerRejectedEv] := rfl
      exact ⟨by rw [h]; simp, by rw [h]; simp, fun m => by rw [h]; simp⟩
    · have h : fullTrace (mkLinuxEnv none igf rp true ae de) =
          [.ensureDistDirEv, .makeTempDirEv, .readRecordStart, .installSpinnerEv,
           .removeRuntimeSyncEv, .decompressStartEv none,
           .versionResolvedEv (some false), .newVersionMsgEv,
           .downloadGetEv (DOWNLOAD_URL (some "linux64")), .downloadFailedEv,
           .innerRejectedEv] := rfl
      exact ⟨by rw [h]; simp, by rw [h]; simp, fun m => by rw [h]; simp⟩
  · intro msg igf rp bg ae de
    have h : fullTrace (mkLinuxEnv (some (.error msg)) igf rp bg ae de) =
        [.ensureDistDirEv, .makeTempDirEv, .readRecordStart, .installSpinnerEv,
         .removeRuntimeSyncEv, .decompressStartEv none,
         .uncaughtCrashEv msg] := rfl
    exact ⟨by rw [h]; simp, fun u => by rw [h]; simp⟩

/-! ## Claim C9: the win32/linux install step over the file-store model -/

theorem foldl_lookup_or (l : FS) (q : Path) (acc : Option String) :
    l.foldl (fun a e => if e.1 = q then some e.2 else a) acc
      = (lookupFS l q).or acc := by
  induction l generalizing acc with
  | nil => rfl
  | cons e l ih =>
      rw [List.foldl_cons, ih]
      have h2 : lookupFS (e :: l) q
          = (lookupFS l q).or (if e.1 = q then some e.2 else none) := by
        rw [lookupFS, List.foldl_cons]
        exact ih _
      rw [h2]
      rcases lookupFS l q with _ | v
      · rw [Option.none_or, Option.none_or]
        split <;> rfl
      · rfl

theorem lookupFS_cons (e : Path × String) (l : FS) (q : Path) :
    lookupFS (e :: l) q
      = (lookupFS l q).or (if e.1 = q then some e.2 else none) := by
  rw [lookupFS, List.foldl_cons]
  exact foldl_lookup_or l q _

theorem lookupFS_append (l₁ l₂ : FS) (q : Path) :
    lookupFS (l₁ ++ l₂) q = (lookupFS l₂ q).or (lookupFS l₁ q) := by
  rw [lookupFS, List.foldl_append, foldl_lookup_or]
  rfl

theorem lookupFS_eq_none (l : FS) (q : Path) (h : ∀ e ∈ l, e.1 ≠ q) :
    lookupFS l q = none := by
  induction l with
  | nil => rfl
  | cons e l ih =>
      rw [lookupFS_cons, ih fun e' he' => h e' (List.mem_cons_of_mem _ he'),
        if_neg (h e (List.mem_cons_self _ _))]
      rfl

theorem lookupFS_filter (P : Path → Prop) [DecidablePred P] (l : FS) (q : Path) :
    lookupFS (l.filter fun e => decide (P e.1)) q
      = if P q then lookupFS l q else none := by
  induction l with
  | nil => split <;> rfl
  | cons e l ih =>
      rw [List.filter_cons]
      by_cases hPe : P e.1
      · rw [if_pos (by simpa using hPe), lookupFS_cons, ih, lookupFS_cons]
        by_cases hq : e.1 = q
        · subst hq
          rw [if_pos hPe, if_pos hPe]
        · rw [if_neg hq, Option.or_none, Option.or_none]
      · rw [if_neg (by simpa using hPe), ih]
        by_cases hPq : P q
        · rw [if_pos hPq, if_pos hPq, lookupFS_cons,
            if_neg fun hc => hPe (by rw [hc]; exact hPq), Option.or_none]
        · rw [if_neg hPq, if_neg hPq]

theorem lookupFS_removeTree (fs : FS) (d q : Path) :
    lookupFS (removeTree fs d) q
      = if ¬ (d <+: q) then lookupFS fs q else none := by
  unfold removeTree
  exact lookupFS_filter (fun p => ¬ (d <+: p)) fs q

theorem lookupFS_filterMap_move (fs : FS) (src dst q : Path) :
    lookupFS (fs.filterMap fun e =>
        if src <+: e.1 then some (dst ++ e.1.drop src.length, e.2) else none)
      (dst ++ q) = lookupFS fs (src ++ q) := by
  induction fs with
  | nil => rfl
  | cons e l ih =>
      rw [List.filterMap_cons]
      by_cases h : src <+: e.1
      · rw [if_pos h, lookupFS_cons, ih, lookupFS_cons]
        obtain ⟨t, ht⟩ := h
        have hd : e.1.drop src.length = t := by rw [← ht, List.drop_left]
        have hiff : dst ++ e.1.drop src.length = dst ++ q ↔ e.1 = src ++ q := by
          rw [hd, ← ht, List.append_right_inj, List.append_right_inj]
        congr 1
        exact if_congr hiff rfl rfl
      · rw [if_neg h, ih, lookupFS_cons,
          if_neg fun hc : e.1 = src ++ q => h (by rw [hc]; exact List.prefix_append _ _),
          Option.or_none]

theorem lookupFS_map_rebase (a : FS) (dest r : Path) :
    lookupFS (a.map fun e => (dest ++ e.1, e.2)) (dest ++ r) = lookupFS a r := by
  induction a with
  | nil => rfl
  | cons e l ih =>
      rw [List.map_cons, lookupFS_cons, ih, lookupFS_cons]
      congr 1
      exact if_congr (List.append_right_inj dest) rfl rfl

theorem lookupFS_decompressTo (fs : FS) (dest : Path) (a : FS) (q : Path) :
    lookupFS (decompressTo fs dest a) q
      = (lookupFS (a.map fun e => (dest ++ e.1, e.2)) q).or (lookupFS fs q) := by
  induction a generalizing fs with
  | nil => rfl
  | cons e a ih =>
      rw [show decompressTo fs dest (e :: a)
            = decompressTo (setFile fs (dest ++ e.1) e.2) dest a from rfl,
        ih, List.map_cons, lookupFS_cons]
      have hset : lookupFS (setFile fs (dest ++ e.1) e.2) q
          = (if dest ++ e.1 = q then some e.2 else none).or (lookupFS fs q) := by
        rw [setFile, lookupFS_append]
        rfl
      rw [hset, ← Option.or_assoc]

theorem not_prefix_of_head_ne (d : Path) (x y : String) (t : Path) (hxy : x ≠ y) :
    ¬ (d ++ [x] <+: d ++ y :: t) := by
  rintro ⟨u, hu⟩
  rw [List.append_assoc] at hu
  have h := (List.append_right_inj d).mp hu
  rw [List.singleton_append] at h
  injection h with h1 _
  exact hxy h1

theorem install_lookup (dest : Path) (a fs : FS)
    (hA : ∀ e ∈ a, e.1.head? = some "firefox")
    (hF : ∀ e ∈ fs, ¬ ((dest ++ ["firefox"]) <+: e.1)) (q : Path) :
    lookupFS (installArchiveStep dest a fs) ((dest ++ ["runtime"]) ++ q)
      = lookupFS a ("firefox" :: q) := by
  have hrename : ¬ ((dest ++ ["firefox"]) <+: (dest ++ ["runtime"]) ++ q) := by
    rw [List.append_assoc]
    exact not_prefix_of_head_ne dest "firefox" "runtime" q (by decide)
  have hmap : lookupFS (a.map fun e => (dest ++ e.1, e.2))
      ((dest ++ ["runtime"]) ++ q) = none := by
    apply lookupFS_eq_none
    intro e' he'
    rw [List.mem_map] at he'
    obtain ⟨e, he, rfl⟩ := he'
    intro hc
    rw [List.append_assoc] at hc
    have h2 := (List.append_right_inj dest).mp hc
    have h3 := hA e he
    rw [h2] at h3
    rw [List.singleton_append, List.head?_cons, Option.some.injEq] at h3
    exact absurd h3 (by decide)
  have hrem : lookupFS (removeTree fs (dest ++ ["runtime"]))
      ((dest ++ ["runtime"]) ++ q) = none := by
    rw [lookupFS_removeTree, if_neg (not_not_intro (List.prefix_append _ _))]
  have hG1 : lookupFS (decompressTo (removeTree fs (dest ++ ["runtime"])) dest a)
      ((dest ++ ["runtime"]) ++ q) = none := by
    rw [lookupFS_decompressTo, hmap, hrem]
    rfl
  have hrem2 : lookupFS (removeTree fs (dest ++ ["runtime"]))
      ((dest ++ ["firefox"]) ++ q) = none := by
    apply lookupFS_eq_none
    intro e he hc
    have hin : e ∈ fs := List.mem_of_mem_filter he
    exact hF e hin (by rw [hc]; exact List.prefix_append _ _)
  unfold installArchiveStep renameTree
  rw [lookupFS_append, lookupFS_filterMap_move,
    lookupFS_filter (fun p => ¬ ((dest ++ ["firefox"]) <+: p)),
    if_pos hrename, hG1, Option.or_none, lookupFS_decompressTo, hrem2,
    Option.or_none, List.append_assoc]
  exact lookupFS_map_rebase a dest _

theorem install_no_firefox (dest : Path) (a fs : FS) :
    ∀ e ∈ installArchiveStep dest a fs, ¬ ((dest ++ ["firefox"]) <+: e.1) := by
  intro e he
  unfold installArchiveStep renameTree at he
  rw [List.mem_append] at he
  rcases he with he | he
  · have h := (List.mem_filter.mp he).2
    simpa using h
  · rw [List.mem_filterMap] at he
    obtain ⟨e', he', hm⟩ := he
    split at hm
    · cases hm
      rw [List.append_assoc]
      exact not_prefix_of_head_ne dest "firefox" "runtime" _ (by decide)
    · exact absurd hm (by simp)

/-- C9: idempotence of the win32/linux install step. For any archive whose
entries all live under the top-level directory "firefox" (the layout the
rename of line 212 relies on) and any starting file store with nothing
parked at the transient dist/firefox staging path, (a) after one install
the content of every path under dist/runtime is exactly the corresponding
archive entry - the prior tree is wholly removed first, so no stale file
survives - and (b) a second install over the result reproduces, path for
path, a byte-identical install tree. -/
theorem claim9_install_idempotent (dest : Path) (archive fs : FS)
    (hA : ∀ e ∈ archive, e.1.head? = some "firefox")
    (hF : ∀ e ∈ fs, ¬ ((dest ++ ["firefox"]) <+: e.1)) :
    (∀ q, lookupFS (installArchiveStep dest archive fs)
        ((dest ++ ["runtime"]) ++ q) = lookupFS archive ("firefox" :: q)) ∧
    (∀ q, lookupFS (installArchiveStep dest archive (installArchiveStep dest archive fs))
        ((dest ++ ["runtime"]) ++ q)
      = lookupFS (installArchiveStep dest archive fs) ((dest ++ ["runtime"]) ++ q)) := by
  have h1 := install_lookup dest archive fs hA hF
  have h2 := install_lookup dest archive (installArchiveStep dest archive fs) hA
    (install_no_firefox dest archive fs)
  exact ⟨h1, fun q => (h2 q).trans (h1 q).symm⟩

/-- C9, witness: the idempotence theorem applied to a concrete archive and
a concrete starting store holding a stale prior install tree. -/
theorem claim9_witness :
    (∀ q, lookupFS (installArchiveStep destW archiveW fsW)
        ((destW ++ ["runtime"]) ++ q) = lookupFS archiveW ("firefox" :: q)) ∧
    (∀ q, lookupFS (installArchiveStep destW archiveW (installArchiveStep destW archiveW fsW))
        ((destW ++ ["runtime"]) ++ q)
      = lookupFS (installArchiveStep destW archiveW fsW) ((destW ++ ["runtime"]) ++ q)) :=
  claim9_install_idempotent destW archiveW fsW (by decide) (by decide)

end Qbrt
